import Mathlib

/-!
Verification of the PandemicPulse data-refresh cache and derived-metrics
pipeline (`app.py`) against its natural-language specification.

The Python source is shallowly embedded:
* JSON values (as produced by `response.json()`) become the inductive `JVal`;
* Python exceptions relevant to the code's `except` clauses become `PyExc`;
* numpy float arrays become `List ℚ`, with element assignment modelled by
  `npSetFloat` (which, like numpy, converts numeric strings, raises
  `TypeError` on `None` and `ValueError` on non-numeric strings);
* `np.divide(a, b, where=cond)` without an `out=` argument leaves the
  positions where `cond` is false uninitialized; that uninitialized memory
  is modelled by an arbitrary `junk : ℕ → ℚ` parameter;
* the process-wide cache dict becomes `CacheState`, and the network is an
  oracle parameter `net : Except PyExc RawData` supplied to each call.
-/

/-- The Python exception kinds distinguished by the source's `except` clauses. -/
inductive PyExc where
  | keyError
  | typeError
  | attributeError
  | valueError
  deriving DecidableEq

/-- A JSON value as returned by `response.json()` in the source. -/
inductive JVal where
  | num (q : ℚ)
  | str (s : String)
  | null
  | obj (fields : List (String × JVal))
  | list (xs : List JVal)

/-- `dict.get(key, dflt)` on an association list of fields. -/
def jGet (fields : List (String × JVal)) (key : String) (dflt : JVal) : JVal :=
  match fields.lookup key with
  | some v => v
  | none => dflt

/-- `v.get(key, dflt)`: raises `AttributeError` unless `v` is a dict. -/
def pyGetD (v : JVal) (key : String) (dflt : JVal) : Except PyExc JVal :=
  match v with
  | .obj fields => .ok (jGet fields key dflt)
  | _ => .error .attributeError

/-- `calculate_trend(current, previous)` from `app.py` lines 68-75: returns 0
when `previous` is 0 or `None`; returns 0 when the arithmetic raises
`TypeError` (either argument not a number); otherwise the percentage change. -/
def calculate_trend (current previous : JVal) : ℚ :=
  match previous with
  | .num p =>
    if p = 0 then 0
    else
      match current with
      | .num c => (c - p) / p * 100
      | _ => 0
  | _ => 0

/-- `safe_division(a, b, default)` from `app.py` lines 77-84: returns `default`
when `b` is 0 or `None` or when the division raises `TypeError`. -/
def safe_division (a b : JVal) (dflt : ℚ) : ℚ :=
  match b with
  | .num q =>
    if q = 0 then dflt
    else
      match a with
      | .num x => x / q
      | _ => dflt
  | _ => dflt

/-- The numeric value of a decimal digit character, if it is one. -/
def digitOfChar (c : Char) : Option ℕ :=
  if '0' ≤ c ∧ c ≤ '9' then some (c.toNat - '0'.toNat) else none

/-- Parse a non-empty string of decimal digits, as Python's `float(s)` /
numpy's string-to-float conversion accepts (restricted to unsigned integer
literals, the only shape relevant to the claims). -/
def decDigits : List Char → Option ℕ
  | [] => none
  | [c] => digitOfChar c
  | c :: rest =>
    match digitOfChar c, decDigits rest with
    | some d, some n => some (d * 10 ^ rest.length + n)
    | _, _ => none

/-- Numpy's conversion of a string to a float element: numeric strings
convert, anything else raises `ValueError`. -/
def numStrVal (s : String) : Option ℚ :=
  match decDigits s.toList with
  | some n => some (n : ℚ)
  | none => none

/-- `arr[i] = v` on a numpy float array: numbers are stored, numeric strings
are converted, `None` raises `TypeError`, non-numeric strings and sequences
raise `ValueError`, dicts raise `TypeError`. -/
def npSetFloat (arr : List ℚ) (i : ℕ) (v : JVal) : Except PyExc (List ℚ) :=
  match v with
  | .num q => .ok (arr.set i q)
  | .str s =>
    match numStrVal s with
    | some q => .ok (arr.set i q)
    | none => .error .valueError
  | .null => .error .typeError
  | .obj _ => .error .typeError
  | .list _ => .error .valueError

/-- The mutable state of the per-country parsing loop (`app.py` lines 120-149):
the growing `countries` and `iso3_data` lists and the pre-allocated numpy
arrays, the latter keyed by the source's variable names (`cases`, `active`,
`recovered`, `deaths`, `tests`, `population`). -/
structure LoopState where
  countries : List JVal
  iso3 : List JVal
  arrays : String → List ℚ

/-- The six numpy arrays written by the loop body, in source statement order
(`app.py` lines 141-146), each with the default its `item.get` call uses. -/
def numericFields : List (String × ℚ) :=
  [("cases", 0), ("active", 0), ("recovered", 0), ("deaths", 0),
   ("tests", 0), ("population", 1)]

/-- Rebind one named array, leaving the others untouched. -/
def updateArr (a : String → List ℚ) (key : String) (out : List ℚ) :
    String → List ℚ :=
  fun k => if k = key then out else a k

/-- The pre-allocated arrays (`app.py` lines 129-136): `np.zeros(n)` for each
metric and `np.ones(n)` for population. -/
def initArrays (n : ℕ) : String → List ℚ :=
  fun key => if key = "population" then List.replicate n 1 else List.replicate n 0

/-- The loop state before the first iteration. -/
def initLoopState (n : ℕ) : LoopState :=
  { countries := [], iso3 := [], arrays := initArrays n }

/-- The six array-element assignments `arr[i] = item.get(key, dflt)` of the
loop body (`app.py` lines 141-146), executed in order; the first exception
stops the chain, and the writes already performed persist, exactly as in
Python. -/
def writeFields : List (String × ℚ) → List (String × JVal) → ℕ →
    (String → List ℚ) → (String → List ℚ) × Option PyExc
  | [], _, _, a => (a, none)
  | (key, dflt) :: rest, fields, i, a =>
    match npSetFloat (a key) i (jGet fields key (.num dflt)) with
    | .error e => (a, some e)
    | .ok out => writeFields rest fields i (updateArr a key out)

/-- One iteration of the parsing loop body (`app.py` lines 139-147), statement
by statement, returning the state reached together with the exception raised,
if any.  `countries.append` happens first, so it persists when a later
statement raises; `iso3_data.append` happens last, only when nothing raised;
a non-dict `item` raises `AttributeError` at the very first `item.get`. -/
def processRecord (item : JVal) (i : ℕ) (s : LoopState) : LoopState × Option PyExc :=
  match item with
  | .obj fields =>
    let s1 := { s with countries := s.countries ++ [jGet fields "country" (.str "Unknown")] }
    match writeFields numericFields fields i s1.arrays with
    | (a, some e) => ({ s1 with arrays := a }, some e)
    | (a, none) =>
      match jGet fields "countryInfo" (.obj []) with
      | .obj cfields =>
        ({ s1 with arrays := a
                   iso3 := s1.iso3 ++ [jGet cfields "iso3" (.str "Unknown")] }, none)
      | _ => ({ s1 with arrays := a }, some .attributeError)
  | _ => (s, some .attributeError)

/-- Whether the loop's `except (KeyError, TypeError): continue` clause catches
the exception (or none was raised).  `AttributeError` and `ValueError` are NOT
caught and propagate out of the loop. -/
def skippable : Option PyExc → Bool
  | none => true
  | some .keyError => true
  | some .typeError => true
  | some .attributeError => false
  | some .valueError => false

/-- `for i, item in enumerate(data)` with the source's try/except around the
body: caught exceptions `continue`, uncaught ones abort the whole loop. -/
def runLoop : List JVal → ℕ → LoopState → Except PyExc LoopState
  | [], _, s => .ok s
  | item :: rest, i, s =>
    if skippable (processRecord item i s).2 then
      runLoop rest (i + 1) (processRecord item i s).1
    else
      .error ((processRecord item i s).2.getD .valueError)

/-- `np.divide(num, den, where=den!=0)` with no `out=` argument: where the
condition is false the slot holds uninitialized memory, modelled by the
arbitrary `junk` function. -/
def npDivideWhere (junk : ℕ → ℚ) (num den : List ℚ) : List ℚ :=
  (List.range num.length).map fun i =>
    if den.getD i 0 ≠ 0 then num.getD i 0 / den.getD i 0 else junk i

/-- The per-million computation (`app.py` lines 152-154): the guarded divide,
then every slot (uninitialized ones included) multiplied by 1,000,000. -/
def perMillion (junk : ℕ → ℚ) (num den : List ℚ) : List ℚ :=
  (npDivideWhere junk num den).map (· * 1000000)

/-- Python `len(v)`: length of a list, dict (number of keys) or string;
`TypeError` on numbers and `None`. -/
def pyLen : JVal → Except PyExc ℕ
  | .list xs => .ok xs.length
  | .obj fs => .ok fs.length
  | .str s => .ok s.length
  | _ => .error .typeError

/-- Python iteration over `v`: list elements, dict keys, string characters;
`TypeError` on numbers and `None`. -/
def pyIter : JVal → Except PyExc (List JVal)
  | .list xs => .ok xs
  | .obj fs => .ok (fs.map fun p => .str p.1)
  | .str s => .ok (s.toList.map fun c => .str (String.mk [c]))
  | _ => .error .typeError

/-- The snapshot dict built by a successful refresh (`app.py` lines 178-195).
`countries` stores whatever `item.get('country', 'Unknown')` returned, `iso3`
likewise; `new_cases` and friends store the raw JSON values of the global
endpoint; `last_updated` is kept as a numeric timestamp (the source formats
it to a string, which is presentation). -/
structure Snapshot where
  countries : List JVal
  cases : List ℚ
  active : List ℚ
  recovered : List ℚ
  deaths : List ℚ
  iso3 : List JVal
  cases_per_million : List ℚ
  deaths_per_million : List ℚ
  tests_per_million : List ℚ
  last_updated : ℚ
  new_cases : JVal
  new_deaths : JVal
  new_recovered : JVal
  cases_trend : ℚ
  deaths_trend : ℚ
  recovered_trend : ℚ

/-- The four JSON payloads obtained when all four HTTP GETs succeed and parse
(`app.py` lines 103-114).  `yesterdayData` is fetched by the source but never
used. -/
structure RawData where
  countriesData : JVal
  yesterdayData : JVal
  globalData : JVal
  globalYesterday : JVal

/-- The module-level `data_cache` dict (`app.py` lines 29-32). -/
structure CacheState where
  data : Option Snapshot
  last_fetch : Option ℚ

/-- The parsing phase over the per-country payload (`app.py` lines 120-149):
`len(data)`, then the enumerate loop over the parsed items. -/
def processCountries (raw : RawData) : Except PyExc LoopState :=
  match pyLen raw.countriesData with
  | .error e => .error e
  | .ok n =>
    match pyIter raw.countriesData with
    | .error e => .error e
    | .ok items => runLoop items 0 (initLoopState n)

/-- The aggregate numbers taken from the global endpoints
(`app.py` lines 157-176). -/
structure GlobalStats where
  new_cases : JVal
  new_deaths : JVal
  new_recovered : JVal
  cases_trend : ℚ
  deaths_trend : ℚ
  recovered_trend : ℚ
  last_updated : ℚ

/-- `v / 1000` on a JSON value, as in the `last_updated` computation; raises
`TypeError` when `v` is not a number. -/
def jDiv1000 (v : JVal) : Except PyExc ℚ :=
  match v with
  | .num q => .ok (q / 1000)
  | _ => .error .typeError

/-- The global-stats phase (`app.py` lines 157-176), in source order:
today's counts, the three trends, then the `updated` timestamp (defaulting to
`now.timestamp() * 1000`) divided by 1000. -/
def processGlobals (raw : RawData) (now : ℚ) : Except PyExc GlobalStats := do
  let new_cases ← pyGetD raw.globalData "todayCases" (.num 0)
  let new_deaths ← pyGetD raw.globalData "todayDeaths" (.num 0)
  let new_recovered ← pyGetD raw.globalData "todayRecovered" (.num 0)
  let gCases ← pyGetD raw.globalData "cases" (.num 0)
  let gyCases ← pyGetD raw.globalYesterday "cases" (.num 0)
  let gDeaths ← pyGetD raw.globalData "deaths" (.num 0)
  let gyDeaths ← pyGetD raw.globalYesterday "deaths" (.num 0)
  let gRecovered ← pyGetD raw.globalData "recovered" (.num 0)
  let gyRecovered ← pyGetD raw.globalYesterday "recovered" (.num 0)
  let updRaw ← pyGetD raw.globalData "updated" (.num (now * 1000))
  let last_updated ← jDiv1000 updRaw
  return { new_cases, new_deaths, new_recovered
           cases_trend := calculate_trend gCases gyCases
           deaths_trend := calculate_trend gDeaths gyDeaths
           recovered_trend := calculate_trend gRecovered gyRecovered
           last_updated }

/-- The whole body of the `try` block once the four payloads are in hand
(`app.py` lines 120-199 up to the dict construction): parse the country
records, derive the per-million arrays, read the global stats, and build the
snapshot.  Any uncaught exception escapes to the outer `except`. -/
def processData (junk : ℕ → ℕ → ℚ) (raw : RawData) (now : ℚ) : Except PyExc Snapshot :=
  match processCountries raw with
  | .error e => .error e
  | .ok s =>
    match processGlobals raw now with
    | .error e => .error e
    | .ok g =>
      .ok { countries := s.countries
            cases := s.arrays "cases"
            active := s.arrays "active"
            recovered := s.arrays "recovered"
            deaths := s.arrays "deaths"
            iso3 := s.iso3
            cases_per_million := perMillion (junk 0) (s.arrays "cases") (s.arrays "population")
            deaths_per_million := perMillion (junk 1) (s.arrays "deaths") (s.arrays "population")
            tests_per_million := perMillion (junk 2) (s.arrays "tests") (s.arrays "population")
            last_updated := g.last_updated
            new_cases := g.new_cases
            new_deaths := g.new_deaths
            new_recovered := g.new_recovered
            cases_trend := g.cases_trend
            deaths_trend := g.deaths_trend
            recovered_trend := g.recovered_trend }

/-- The outcome of one refresh attempt: the network oracle's verdict chained
with the processing of its payloads. -/
def refreshResult (junk : ℕ → ℕ → ℚ) (now : ℚ) (net : Except PyExc RawData) :
    Except PyExc Snapshot :=
  match net with
  | .error e => .error e
  | .ok raw => processData junk raw now

/-- Whether a refresh attempt failed. -/
def isError : Except PyExc Snapshot → Bool
  | .error _ => true
  | .ok _ => false

/-- The synthetic empty snapshot returned when a refresh fails with no prior
cache entry (`app.py` lines 207-224). -/
def emptySnapshot (now : ℚ) : Snapshot :=
  { countries := []
    cases := []
    active := []
    recovered := []
    deaths := []
    iso3 := []
    cases_per_million := []
    deaths_per_million := []
    tests_per_million := []
    last_updated := now
    new_cases := .num 0
    new_deaths := .num 0
    new_recovered := .num 0
    cases_trend := 0
    deaths_trend := 0
    recovered_trend := 0 }

/-- The refresh path (`app.py` lines 95-224): on success store and return the
new snapshot stamping `last_fetch = now`; on any exception return the prior
entry unchanged if one exists, else the synthetic empty snapshot — the cache
slot is written only on success.  The third component counts the network
fetch cycles performed (one per attempt). -/
def attemptRefresh (junk : ℕ → ℕ → ℚ) (now : ℚ) (net : Except PyExc RawData)
    (st : CacheState) : Snapshot × CacheState × ℕ :=
  match refreshResult junk now net with
  | .ok snap => (snap, ⟨some snap, some now⟩, 1)
  | .error _ =>
    match st.data with
    | some d => (d, st, 1)
    | none => (emptySnapshot now, st, 1)

/-- `fetch_covid_data(force)` (`app.py` lines 86-224): return the cached
snapshot when not forced, an entry exists, and it is younger than 900
seconds; otherwise attempt a refresh. -/
def fetch_covid_data (junk : ℕ → ℕ → ℚ) (force : Bool) (now : ℚ)
    (net : Except PyExc RawData) (st : CacheState) : Snapshot × CacheState × ℕ :=
  match force, st.data, st.last_fetch with
  | false, some d, some f =>
    if now - f < 900 then (d, st, 0) else attemptRefresh junk now net st
  | _, _, _ => attemptRefresh junk now net st

/-- The value of a hexadecimal digit character, as `int(c, 16)` accepts. -/
def hexDigit (c : Char) : ℕ :=
  if '0' ≤ c ∧ c ≤ '9' then c.toNat - '0'.toNat
  else if 'a' ≤ c ∧ c ≤ 'f' then c.toNat - 'a'.toNat + 10
  else if 'A' ≤ c ∧ c ≤ 'F' then c.toNat - 'A'.toNat + 10
  else 0

/-- `int(s[i:i+2], 16)`: the byte encoded at positions `i`, `i+1` of a hex
color string. -/
def hexByteAt (s : String) (i : ℕ) : ℕ :=
  16 * hexDigit (s.toList.getD i '0') + hexDigit (s.toList.getD (i + 1) '0')

/-- The RGB triple parsed from a `#rrggbb` string (`app.py` lines 398-399). -/
def rgbOf (s : String) : ℕ × ℕ × ℕ :=
  (hexByteAt s 1, hexByteAt s 3, hexByteAt s 5)

/-- The low hex digit character, as Python's `{:02x}` format produces. -/
def hexChar (n : ℕ) : Char :=
  if n < 10 then Char.ofNat ('0'.toNat + n) else Char.ofNat ('a'.toNat + n - 10)

/-- A byte rendered as two lowercase hex characters (`{:02x}`). -/
def byteHex (n : ℕ) : String :=
  String.mk [hexChar (n / 16 % 16), hexChar (n % 16)]

/-- Python's `int(q)`: truncation toward zero. -/
def pyInt (q : ℚ) : ℤ := if q < 0 then -⌊-q⌋ else ⌊q⌋

/-- One channel of the linear interpolation
`int(c1 * (1 - t) + c2 * t)` (`app.py` lines 401-403). -/
def interpChannel (a b : ℕ) (t : ℚ) : ℤ :=
  pyInt ((a : ℚ) * (1 - t) + (b : ℚ) * t)

/-- The fixed six-color palette (`app.py` lines 372-379). -/
def colors : List String :=
  ["#4a148c", "#7b1fa2", "#9c27b0", "#e91e63", "#f44336", "#ff5722"]

/-- `get_color_for_value(value)` from `app.py` lines 370-405: scale into
`[0, 5]`, truncate to a segment index, clamp out-of-range indices to the
palette ends, and linearly interpolate each RGB channel between the two
adjacent palette colors, formatting the result as `#rrggbb`. -/
def get_color_for_value (value : ℚ) : String :=
  let segment := value * 5
  let i := pyInt segment
  if 5 ≤ i then colors.getD (colors.length - 1) ""
  else if i < 0 then colors.getD 0 ""
  else
    let t := segment - (i : ℚ)
    let c1 := rgbOf (colors.getD i.toNat "")
    let c2 := rgbOf (colors.getD (i.toNat + 1) "")
    "#" ++ byteHex (interpChannel c1.1 c2.1 t).toNat
        ++ byteHex (interpChannel c1.2.1 c2.2.1 t).toNat
        ++ byteHex (interpChannel c1.2.2 c2.2.2 t).toNat

/-- The palette color `k` as an exact rational RGB triple. -/
def paletteRat (k : ℕ) : ℚ × ℚ × ℚ :=
  (((rgbOf (colors.getD k "")).1 : ℚ),
   ((rgbOf (colors.getD k "")).2.1 : ℚ),
   ((rgbOf (colors.getD k "")).2.2 : ℚ))

/-- The exact (pre-truncation) interpolated RGB triple within segment `k` at
fraction `t`, as computed by `get_color_for_value`. -/
def segExact (k : ℕ) (t : ℚ) : ℚ × ℚ × ℚ :=
  (((rgbOf (colors.getD k "")).1 : ℚ) * (1 - t) + ((rgbOf (colors.getD (k + 1) "")).1 : ℚ) * t,
   ((rgbOf (colors.getD k "")).2.1 : ℚ) * (1 - t) + ((rgbOf (colors.getD (k + 1) "")).2.1 : ℚ) * t,
   ((rgbOf (colors.getD k "")).2.2 : ℚ) * (1 - t) + ((rgbOf (colors.getD (k + 1) "")).2.2 : ℚ) * t)

/-- Builtin `max(xs)` over an iterable: `ValueError` on an empty sequence. -/
def pyMax (xs : List ℚ) : Except PyExc ℚ :=
  match xs with
  | [] => .error .valueError
  | x :: rest => .ok (rest.foldl max x)

/-- The figure data computed by `create_map_figure` (`app.py` lines 253-283)
that can raise: `max_cases = max(map_data['cases'])`, the tick `breaks`, and
the normalized color stops. -/
structure MapFigure where
  max_cases : ℚ
  breaks : List ℚ
  color_stops : List (ℚ × String)

/-- `create_map_figure`, reduced to its fallible computational core
(`app.py` lines 253-272): the builtin `max` over the cases array is evaluated
first and raises `ValueError` on an empty batch. -/
def create_map_figure (cases : List ℚ) : Except PyExc MapFigure :=
  match pyMax cases with
  | .error e => .error e
  | .ok m =>
    .ok { max_cases := m
          breaks := [0, 20000000, 40000000, 60000000, 80000000, 100000000, m]
          color_stops := (List.range 7).map fun i =>
            (((i : ℚ) / 6), get_color_for_value ((i : ℚ) / 6)) }

/-- The data computed by the `update_dashboard` callback before rendering
(`app.py` lines 635-713): aggregate sums for the cards, then the map figure. -/
structure DashboardView where
  last_updated : ℚ
  total_cases : ℚ
  active_cases : ℚ
  recovered : ℚ
  deaths : ℚ
  map_fig : MapFigure

/-- `update_dashboard` (`app.py` lines 635-713): fetch the snapshot (never
raises), build the cards from sums (total, active, recovered, deaths), then
build the map figure — whose exception, if any, escapes the callback. -/
def update_dashboard (junk : ℕ → ℕ → ℚ) (now : ℚ) (net : Except PyExc RawData)
    (st : CacheState) : Except PyExc DashboardView × CacheState :=
  let r := fetch_covid_data junk false now net st
  let data := r.1
  match create_map_figure data.cases with
  | .error e => (.error e, r.2.1)
  | .ok fig =>
    (.ok { last_updated := data.last_updated
           total_cases := data.cases.sum
           active_cases := data.active.sum
           recovered := data.recovered.sum
           deaths := data.deaths.sum
           map_fig := fig }, r.2.1)

/-- Uninitialized-memory oracle used for the concrete scenarios: every
uninitialized float slot happens to hold 1. -/
def junkC : ℕ → ℕ → ℚ := fun _ _ => 1

/-- A fully well-formed country record. -/
def goodRec (name iso : String) (c : ℚ) : JVal :=
  .obj [("country", .str name), ("cases", .num c), ("active", .num 2),
        ("recovered", .num 3), ("deaths", .num 1), ("tests", .num 20),
        ("population", .num 1000), ("countryInfo", .obj [("iso3", .str iso)])]

/-- A well-formed global-summary payload. -/
def goodGlobal : JVal :=
  .obj [("todayCases", .num 5), ("todayDeaths", .num 1), ("todayRecovered", .num 2),
        ("cases", .num 200), ("deaths", .num 20), ("recovered", .num 100),
        ("updated", .num 1700000000000)]

/-- A well-formed yesterday global-summary payload. -/
def goodGlobalYesterday : JVal :=
  .obj [("cases", .num 100), ("deaths", .num 10), ("recovered", .num 50)]

/-- Assemble a raw fetch result around a concrete country batch. -/
def mkRaw (recs : List JVal) : RawData :=
  { countriesData := .list recs
    yesterdayData := .list []
    globalData := goodGlobal
    globalYesterday := goodGlobalYesterday }

/-- Record with no `cases` key at all (field missing). -/
def recMissingCases : JVal :=
  .obj [("country", .str "B"), ("active", .num 2), ("recovered", .num 3),
        ("deaths", .num 1), ("tests", .num 20), ("population", .num 1000),
        ("countryInfo", .obj [("iso3", .str "BBB")])]

/-- Record whose `cases` value is a non-numeric string (malformed field). -/
def recStrCases : JVal :=
  .obj [("country", .str "B"), ("cases", .str "oops"), ("active", .num 2),
        ("recovered", .num 3), ("deaths", .num 1), ("tests", .num 20),
        ("population", .num 1000), ("countryInfo", .obj [("iso3", .str "BBB")])]

/-- Record whose `cases` value is JSON `null`. -/
def recNullCases : JVal :=
  .obj [("country", .str "B"), ("cases", .null), ("active", .num 2),
        ("recovered", .num 3), ("deaths", .num 1), ("tests", .num 20),
        ("population", .num 1000), ("countryInfo", .obj [("iso3", .str "BBB")])]

/-- Three fully well-formed records. -/
def rawGood : RawData :=
  mkRaw [goodRec "A" "AAA" 10, goodRec "B" "BBB" 20, goodRec "C" "CCC" 30]

/-- Three records, the second missing its `cases` key. -/
def rawMissing : RawData :=
  mkRaw [goodRec "A" "AAA" 10, recMissingCases, goodRec "C" "CCC" 30]

/-- Three records, the second holding a string where `cases` should be a
number. -/
def rawStr : RawData :=
  mkRaw [goodRec "A" "AAA" 10, recStrCases, goodRec "C" "CCC" 30]

/-- Three records, the second holding `null` for `cases`. -/
def rawNull : RawData :=
  mkRaw [goodRec "A" "AAA" 10, recNullCases, goodRec "C" "CCC" 30]

/-- Three records, the second not an object at all. -/
def rawNonObj : RawData :=
  mkRaw [goodRec "A" "AAA" 10, .num 42, goodRec "C" "CCC" 30]

/-- One record with an explicit population of 0. -/
def rawZeroPop : RawData :=
  mkRaw [.obj [("country", .str "A"), ("cases", .num 5), ("population", .num 0)]]

/-- The snapshot produced from `rawGood` (derived fields left symbolic). -/
def snapGood : Snapshot :=
  { countries := [.str "A", .str "B", .str "C"]
    cases := [10, 20, 30]
    active := [2, 2, 2]
    recovered := [3, 3, 3]
    deaths := [1, 1, 1]
    iso3 := [.str "AAA", .str "BBB", .str "CCC"]
    cases_per_million := perMillion (junkC 0) [10, 20, 30] [1000, 1000, 1000]
    deaths_per_million := perMillion (junkC 1) [1, 1, 1] [1000, 1000, 1000]
    tests_per_million := perMillion (junkC 2) [20, 20, 20] [1000, 1000, 1000]
    last_updated := 1700000000000 / 1000
    new_cases := .num 5
    new_deaths := .num 1
    new_recovered := .num 2
    cases_trend := calculate_trend (.num 200) (.num 100)
    deaths_trend := calculate_trend (.num 20) (.num 10)
    recovered_trend := calculate_trend (.num 100) (.num 50) }

/-- Claim C7: `calculate_trend` equals 0 when previous is 0 or null and equals
`((current - previous) / previous) * 100` for numeric inputs otherwise, never
raising; in particular `trend(p, p) = 0`, `trend(x, 0) = 0`, `trend(x, None) = 0`. -/
theorem calculate_trend_spec :
    (∀ c p : ℚ, calculate_trend (.num c) (.num p) =
      if p = 0 then 0 else (c - p) / p * 100)
    ∧ (∀ x : JVal, calculate_trend x .null = 0)
    ∧ (∀ x : JVal, calculate_trend x (.num 0) = 0)
    ∧ (∀ p : ℚ, calculate_trend (.num p) (.num p) = 0) := by
  refine ⟨fun c p => rfl, fun x => rfl, fun x => by simp [calculate_trend], fun p => ?_⟩
  by_cases h : p = 0 <;> simp [calculate_trend, h]

/-- Claim C8: `safe_division(a, b, default)` equals `default` when `b` is 0 or
null and `a / b` for numeric inputs otherwise, never raising; in particular
`safe_ratio(a, 0, d) = d` and `safe_ratio(a, None, d) = d` for all `a`, `d`. -/
theorem safe_division_spec :
    (∀ a q d : ℚ, safe_division (.num a) (.num q) d = if q = 0 then d else a / q)
    ∧ (∀ (x : JVal) (d : ℚ), safe_division x .null d = d)
    ∧ (∀ (x : JVal) (d : ℚ), safe_division x (.num 0) d = d) := by
  refine ⟨fun a q d => rfl, fun x d => rfl, fun x d => by simp [safe_division]⟩

lemma attemptRefresh_count (junk : ℕ → ℕ → ℚ) (now : ℚ) (net : Except PyExc RawData)
    (st : CacheState) : (attemptRefresh junk now net st).2.2 = 1 := by
  unfold attemptRefresh
  cases refreshResult junk now net with
  | ok snap => rfl
  | error e => cases st.data <;> rfl

lemma fetch_count_le_one (junk : ℕ → ℕ → ℚ) (force : Bool) (now : ℚ)
    (net : Except PyExc RawData) (st : CacheState) :
    (fetch_covid_data junk force now net st).2.2 ≤ 1 := by
  unfold fetch_covid_data
  cases force <;> cases hd : st.data <;> cases hf : st.last_fetch <;>
    simp [attemptRefresh_count]
  split <;> simp [attemptRefresh_count]

/-- Claim C1: with an existing cache entry younger than 15 minutes, a
non-forced call returns that entry unchanged with no network access; hence
two such calls perform at most one fetch in total, and a non-forced call made
at or after the 15-minute mark performs exactly one more fetch. -/
theorem cache_freshness_spec :
    (∀ (junk : ℕ → ℕ → ℚ) (now : ℚ) (net : Except PyExc RawData)
        (st : CacheState) (d : Snapshot) (f : ℚ),
      st.data = some d → st.last_fetch = some f → now - f < 900 →
      fetch_covid_data junk false now net st = (d, st, 0))
    ∧ (∀ (junk : ℕ → ℕ → ℚ) (t1 t2 : ℚ) (net1 net2 : Except PyExc RawData)
        (st : CacheState) (d : Snapshot) (f : ℚ),
      st.data = some d → st.last_fetch = some f → t1 - f < 900 →
      (fetch_covid_data junk false t1 net1 st).2.2 +
        (fetch_covid_data junk false t2 net2
          (fetch_covid_data junk false t1 net1 st).2.1).2.2 ≤ 1)
    ∧ (∀ (junk : ℕ → ℕ → ℚ) (now : ℚ) (net : Except PyExc RawData)
        (st : CacheState) (d : Snapshot) (f : ℚ),
      st.data = some d → st.last_fetch = some f → 900 ≤ now - f →
      (fetch_covid_data junk false now net st).2.2 = 1) := by
  have fresh : ∀ (junk : ℕ → ℕ → ℚ) (now : ℚ) (net : Except PyExc RawData)
      (st : CacheState) (d : Snapshot) (f : ℚ),
      st.data = some d → st.last_fetch = some f → now - f < 900 →
      fetch_covid_data junk false now net st = (d, st, 0) := by
    intro junk now net st d f hd hf hlt
    unfold fetch_covid_data
    rw [hd, hf]
    simp [hlt]
  refine ⟨fresh, ?_, ?_⟩
  · intro junk t1 t2 net1 net2 st d f hd hf hlt
    rw [fresh junk t1 net1 st d f hd hf hlt]
    simpa using fetch_count_le_one junk false t2 net2 st
  · intro junk now net st d f hd hf hge
    unfold fetch_covid_data
    rw [hd, hf]
    have h9 : ¬ now - f < 900 := not_lt.mpr hge
    simp [h9, attemptRefresh_count]

/-- Witness for `cache_freshness_spec` at a concrete fresh cache state. -/
theorem cache_freshness_witness :
    fetch_covid_data (fun _ _ => 1) false 100 (.error .typeError)
        ⟨some (emptySnapshot 0), some 0⟩ = (emptySnapshot 0, ⟨some (emptySnapshot 0), some 0⟩, 0) :=
  cache_freshness_spec.1 (fun _ _ => 1) 100 (.error .typeError)
    ⟨some (emptySnapshot 0), some 0⟩ (emptySnapshot 0) 0 rfl rfl (by norm_num)

/-- Claim C3: whenever a prior cache entry exists and the refresh attempt
fails (for any reason, forced or not), the call returns exactly the prior
entry and leaves the cache slot — entry and `last_fetch` alike — unchanged. -/
theorem stale_fallback_spec :
    ∀ (junk : ℕ → ℕ → ℚ) (force : Bool) (now : ℚ) (net : Except PyExc RawData)
      (st : CacheState) (d : Snapshot),
      st.data = some d → isError (refreshResult junk now net) = true →
      (fetch_covid_data junk force now net st).1 = d ∧
        (fetch_covid_data junk force now net st).2.1 = st := by
  intro junk force now net st d hd herr
  have hatt : attemptRefresh junk now net st = (d, st, 1) := by
    unfold attemptRefresh
    cases hr : refreshResult junk now net with
    | ok snap => rw [hr] at herr; simp [isError] at herr
    | error e => rw [hd]
  unfold fetch_covid_data
  cases force with
  | true => rw [hatt]; exact ⟨rfl, rfl⟩
  | false =>
    rw [hd]
    cases hf : st.last_fetch with
    | none => rw [hatt]; exact ⟨rfl, rfl⟩
    | some f =>
      by_cases hlt : now - f < 900
      · simp [hlt]
      · simp [hlt, hatt]

/-- Witness for `stale_fallback_spec`: a concrete failed forced refresh over a
populated cache. -/
theorem stale_fallback_witness :
    (fetch_covid_data (fun _ _ => 1) true 100 (.error .typeError)
        ⟨some (emptySnapshot 0), some 0⟩).1 = emptySnapshot 0 ∧
      (fetch_covid_data (fun _ _ => 1) true 100 (.error .typeError)
        ⟨some (emptySnapshot 0), some 0⟩).2.1 = ⟨some (emptySnapshot 0), some 0⟩ :=
  stale_fallback_spec (fun _ _ => 1) true 100 (.error .typeError)
    ⟨some (emptySnapshot 0), some 0⟩ (emptySnapshot 0) rfl rfl

/-- Claim C4: a failing refresh with no prior entry never raises and returns
the synthetic empty snapshot — empty country list, zero aggregates and
trends, `last_updated` equal to the current wall-clock time — leaving the
cache slot unwritten. -/
theorem degraded_empty_spec :
    ∀ (junk : ℕ → ℕ → ℚ) (force : Bool) (now : ℚ) (net : Except PyExc RawData)
      (st : CacheState),
      st.data = none → isError (refreshResult junk now net) = true →
      fetch_covid_data junk force now net st = (emptySnapshot now, st, 1) ∧
        (emptySnapshot now).countries.length = 0 ∧
        (emptySnapshot now).new_cases = .num 0 ∧
        (emptySnapshot now).new_deaths = .num 0 ∧
        (emptySnapshot now).new_recovered = .num 0 ∧
        (emptySnapshot now).cases_trend = 0 ∧
        (emptySnapshot now).deaths_trend = 0 ∧
        (emptySnapshot now).recovered_trend = 0 ∧
        (emptySnapshot now).last_updated = now := by
  intro junk force now net st hd herr
  have hatt : attemptRefresh junk now net st = (emptySnapshot now, st, 1) := by
    unfold attemptRefresh
    cases hr : refreshResult junk now net with
    | ok snap => rw [hr] at herr; simp [isError] at herr
    | error e => rw [hd]
  refine ⟨?_, rfl, rfl, rfl, rfl, rfl, rfl, rfl, rfl⟩
  unfold fetch_covid_data
  cases force with
  | true => rw [hatt]
  | false => rw [hd]; exact hatt

/-- Witness for `degraded_empty_spec`: a concrete failed first fetch. -/
theorem degraded_empty_witness :
    fetch_covid_data (fun _ _ => 1) false 100 (.error .typeError) ⟨none, none⟩ =
      (emptySnapshot 100, ⟨none, none⟩, 1) :=
  (degraded_empty_spec (fun _ _ => 1) false 100 (.error .typeError) ⟨none, none⟩
    rfl rfl).1

lemma pyInt_natCast (k : ℕ) : pyInt (k : ℚ) = k := by
  have h : (0 : ℚ) ≤ (k : ℚ) := by exact_mod_cast Nat.zero_le k
  simp [pyInt, Int.floor_natCast, not_lt.mpr h]

lemma interpChannel_zero (a b : ℕ) : interpChannel a b 0 = a := by
  norm_num [interpChannel]
  exact pyInt_natCast a

lemma get_color_at_seg (k : ℕ) (hk : k < 5) :
    get_color_for_value ((k : ℚ) / 5) =
      "#" ++ byteHex (rgbOf (colors.getD k "")).1
          ++ byteHex (rgbOf (colors.getD k "")).2.1
          ++ byteHex (rgbOf (colors.getD k "")).2.2 := by
  have hseg : ((k : ℚ) / 5) * 5 = (k : ℚ) := by field_simp
  unfold get_color_for_value
  rw [hseg]
  have h5 : ¬ (5 : ℤ) ≤ ((k : ℤ)) := by exact_mod_cast not_le.mpr hk
  have h0 : ¬ ((k : ℤ)) < 0 := not_lt.mpr (Int.natCast_nonneg k)
  have ht : (k : ℚ) - (((k : ℕ) : ℤ) : ℚ) = 0 := by push_cast; ring
  simp only [pyInt_natCast, h5, if_false, h0, ht, interpChannel_zero, Int.toNat_natCast]

/-- Claim C9: the choropleth color scale takes segment `i = floor(v*5)`
clamped to the palette range and linearly interpolates between adjacent
palette colors; `interpolate(0.0)` is the first palette color,
`interpolate(1.0)` the last, the realized output at every segment boundary
`k/5` is exactly palette color `k`, and the exact interpolant is continuous
at segment boundaries: within each segment it starts at palette color `k`
(fraction 0) and ends at palette color `k+1` (fraction 1), so adjacent
segments agree at their shared boundary. -/
theorem color_interpolation_spec :
    get_color_for_value 0 = "#4a148c"
    ∧ get_color_for_value 1 = "#ff5722"
    ∧ (∀ k : Fin 6, get_color_for_value (((k : ℕ) : ℚ) / 5) = colors.getD (k : ℕ) "")
    ∧ (∀ k : Fin 5, segExact (k : ℕ) 0 = paletteRat (k : ℕ)
        ∧ segExact (k : ℕ) 1 = paletteRat ((k : ℕ) + 1)) := by
  have hzero : ∀ k : ℕ, segExact k 0 = paletteRat k := by
    intro k; norm_num [segExact, paletteRat]
  have hone : ∀ k : ℕ, segExact k 1 = paletteRat (k + 1) := by
    intro k; norm_num [segExact, paletteRat]
  refine ⟨?_, ?_, ?_, fun k => ⟨hzero _, hone _⟩⟩
  · have h : (0 : ℚ) = ((0 : ℕ) : ℚ) / 5 := by norm_num
    rw [h, get_color_at_seg 0 (by norm_num)]
    decide
  · norm_num [get_color_for_value, pyInt, colors]
  · intro k
    fin_cases k
    · rw [get_color_at_seg 0 (by norm_num)]; decide
    · rw [get_color_at_seg 1 (by norm_num)]; decide
    · rw [get_color_at_seg 2 (by norm_num)]; decide
    · rw [get_color_at_seg 3 (by norm_num)]; decide
    · rw [get_color_at_seg 4 (by norm_num)]; decide
    · norm_num [get_color_for_value, pyInt, colors]

lemma perMillion_getD (junk : ℕ → ℚ) (num den : List ℚ) (i : ℕ) (h : i < num.length) :
    (perMillion junk num den).getD i 0 =
      (if den.getD i 0 ≠ 0 then num.getD i 0 / den.getD i 0 else junk i) * 1000000 := by
  simp [perMillion, npDivideWhere, List.getD_eq_getElem?_getD, List.getElem?_map,
    List.getElem?_range, h]

lemma perMillion_length (junk : ℕ → ℚ) (num den : List ℚ) :
    (perMillion junk num den).length = num.length := by
  simp [perMillion, npDivideWhere]

/-- Claim C6 (amended): a per-million slot equals
`numerator / population * 1e6` wherever the population entry is nonzero (the
source's `where=population!=0` guard, not `> 0`); where the population entry
is zero the slot is uninitialized memory scaled by 1e6, not 0; the rate is
finite and non-negative when the numerator is non-negative and the
population positive; and a record with no population key defaults to 1. -/
theorem per_million_amended :
    ∀ (junk : ℕ → ℚ) (num den : List ℚ) (i : ℕ), i < num.length →
      (den.getD i 0 ≠ 0 →
        (perMillion junk num den).getD i 0 = num.getD i 0 / den.getD i 0 * 1000000)
      ∧ (den.getD i 0 = 0 → (perMillion junk num den).getD i 0 = junk i * 1000000)
      ∧ (0 < den.getD i 0 → 0 ≤ num.getD i 0 → 0 ≤ (perMillion junk num den).getD i 0)
      ∧ (∀ fs : List (String × JVal), fs.lookup "population" = none →
          jGet fs "population" (.num 1) = .num 1) := by
  intro junk num den i h
  refine ⟨fun hne => ?_, fun hz => ?_, fun hpos hnn => ?_, fun fs hfs => ?_⟩
  · rw [perMillion_getD junk num den i h, if_pos hne]
  · rw [perMillion_getD junk num den i h, if_neg (fun hc => hc hz)]
  · rw [perMillion_getD junk num den i h, if_pos (ne_of_gt hpos)]
    have : 0 ≤ num.getD i 0 / den.getD i 0 := div_nonneg hnn (le_of_lt hpos)
    positivity
  · simp [jGet, hfs]

/-- Witness for `per_million_amended`: with uninitialized memory holding 1
and a zero population entry, the per-million slot is 1,000,000, not 0. -/
theorem per_million_amended_witness :
    (perMillion (fun _ => 1) [5] [0]).getD 0 0 = 1 * 1000000 :=
  (per_million_amended (fun _ => 1) [5] [0] 0 (by norm_num)).2.1 (by norm_num)

lemma npSetFloat_length {arr : List ℚ} {i : ℕ} {v : JVal} {out : List ℚ}
    (h : npSetFloat arr i v = .ok out) : out.length = arr.length := by
  unfold npSetFloat at h
  repeat' split at h
  all_goals first
    | (injection h with h; subst h; simp)
    | cases h

lemma writeFields_length (L : List (String × ℚ)) (fields : List (String × JVal))
    (i : ℕ) (a : String → List ℚ) (k : String) :
    ((writeFields L fields i a).1 k).length = (a k).length := by
  induction L generalizing a with
  | nil => rfl
  | cons p rest ih =>
    obtain ⟨key, dflt⟩ := p
    simp only [writeFields]
    cases h : npSetFloat (a key) i (jGet fields key (.num dflt)) with
    | error e => rfl
    | ok out =>
      dsimp only []
      rw [ih]
      rw [show updateArr a key out k = if k = key then out else a k from rfl]
      by_cases hk : k = key
      · subst hk
        rw [if_pos rfl]
        exact npSetFloat_length h
      · rw [if_neg hk]

lemma processRecord_arrays_length (item : JVal) (i : ℕ) (s : LoopState) (k : String) :
    ((processRecord item i s).1.arrays k).length = (s.arrays k).length := by
  cases item with
  | obj fields =>
    simp only [processRecord]
    rcases hw : writeFields numericFields fields i s.arrays with ⟨a, e⟩
    have ha : a = (writeFields numericFields fields i s.arrays).1 := by rw [hw]
    cases e with
    | none =>
      cases jGet fields "countryInfo" (JVal.obj []) <;> dsimp only [] <;>
        (rw [ha]; exact writeFields_length numericFields fields i s.arrays k)
    | some e =>
      dsimp only []
      rw [ha]
      exact writeFields_length numericFields fields i s.arrays k
  | num q => rfl
  | str t => rfl
  | null => rfl
  | list xs => rfl

lemma processRecord_countries_obj (fields : List (String × JVal)) (i : ℕ) (s : LoopState) :
    (processRecord (.obj fields) i s).1.countries.length = s.countries.length + 1 := by
  simp only [processRecord]
  rcases writeFields numericFields fields i s.arrays with ⟨a, e⟩
  cases e with
  | none =>
    cases jGet fields "countryInfo" (JVal.obj []) <;> dsimp only [] <;> simp
  | some e => simp

lemma processRecord_skippable_countries (item : JVal) (i : ℕ) (s : LoopState)
    (h : skippable (processRecord item i s).2 = true) :
    (processRecord item i s).1.countries.length = s.countries.length + 1 := by
  cases item with
  | obj fields => exact processRecord_countries_obj fields i s
  | num q => simp [processRecord, skippable] at h
  | str t => simp [processRecord, skippable] at h
  | null => simp [processRecord, skippable] at h
  | list xs => simp [processRecord, skippable] at h

lemma processRecord_iso3_le (item : JVal) (i : ℕ) (s : LoopState) :
    (processRecord item i s).1.iso3.length ≤ s.iso3.length + 1 := by
  cases item with
  | obj fields =>
    simp only [processRecord]
    rcases writeFields numericFields fields i s.arrays with ⟨a, e⟩
    cases e with
    | none =>
      cases jGet fields "countryInfo" (JVal.obj []) <;> dsimp only [] <;> simp
    | some e => simp
  | num q => simp [processRecord]
  | str t => simp [processRecord]
  | null => simp [processRecord]
  | list xs => simp [processRecord]

lemma runLoop_lengths : ∀ (items : List JVal) (i : ℕ) (s s' : LoopState),
    runLoop items i s = .ok s' →
    (∀ k, (s'.arrays k).length = (s.arrays k).length)
    ∧ s'.countries.length = s.countries.length + items.length
    ∧ s'.iso3.length ≤ s.iso3.length + items.length := by
  intro items
  induction items with
  | nil =>
    intro i s s' h
    simp only [runLoop] at h
    injection h with h
    subst h
    simp
  | cons item rest ih =>
    intro i s s' h
    simp only [runLoop] at h
    by_cases hsk : skippable (processRecord item i s).2 = true
    · rw [if_pos hsk] at h
      obtain ⟨ha, hc, hi⟩ := ih (i + 1) _ s' h
      have ha2 := processRecord_arrays_length item i s
      have hc2 := processRecord_skippable_countries item i s hsk
      have hi2 := processRecord_iso3_le item i s
      refine ⟨fun k => by rw [ha k, ha2 k], ?_, ?_⟩
      · simp only [List.length_cons]
        omega
      · simp only [List.length_cons]
        omega
    · rw [if_neg hsk] at h
      cases h

lemma initArrays_length (n : ℕ) (k : String) : (initArrays n k).length = n := by
  unfold initArrays
  split <;> simp

lemma pyLen_pyIter_agree {v : JVal} {n : ℕ} {items : List JVal}
    (hl : pyLen v = .ok n) (hi : pyIter v = .ok items) : items.length = n := by
  cases v with
  | num q => cases hl
  | null => cases hl
  | str s =>
    injection hl with hl
    injection hi with hi
    subst hl
    subst hi
    simp only [List.length_map]
    rfl
  | obj fs =>
    injection hl with hl
    injection hi with hi
    subst hl
    subst hi
    simp
  | list xs =>
    injection hl with hl
    injection hi with hi
    subst hl
    subst hi
    rfl

lemma processCountries_ok {raw : RawData} {s : LoopState}
    (h : processCountries raw = .ok s) :
    (∀ k, (s.arrays k).length = s.countries.length)
    ∧ s.iso3.length ≤ s.countries.length := by
  unfold processCountries at h
  cases hl : pyLen raw.countriesData with
  | error e => rw [hl] at h; cases h
  | ok n =>
    rw [hl] at h
    cases hi : pyIter raw.countriesData with
    | error e => rw [hi] at h; cases h
    | ok items =>
      rw [hi] at h
      obtain ⟨ha, hc, hiso⟩ := runLoop_lengths items 0 (initLoopState n) s h
      have hlen : items.length = n := pyLen_pyIter_agree hl hi
      have hcount : s.countries.length = n := by
        rw [hc]
        simp [initLoopState, hlen]
      refine ⟨fun k => ?_, ?_⟩
      · rw [ha k, hcount]
        exact initArrays_length n k
      · rw [hcount]
        have : s.iso3.length ≤ 0 + items.length := by
          simpa [initLoopState] using hiso
        omega

/-- Claim C10 (amended): after every successful refresh the numeric arrays
(`cases`, `active`, `recovered`, `deaths` and the three per-million arrays)
and the `countries` list all have the same length — the raw batch size — but
the `iso3` list can be strictly shorter: a record whose parse raises a caught
exception after `countries.append` is skipped before `iso3_data.append`, so
`iso3` only satisfies `length ≤`. -/
theorem parallel_lengths_amended :
    ∀ (junk : ℕ → ℕ → ℚ) (raw : RawData) (now : ℚ) (snap : Snapshot),
      processData junk raw now = .ok snap →
      snap.cases.length = snap.countries.length
      ∧ snap.active.length = snap.countries.length
      ∧ snap.recovered.length = snap.countries.length
      ∧ snap.deaths.length = snap.countries.length
      ∧ snap.cases_per_million.length = snap.countries.length
      ∧ snap.deaths_per_million.length = snap.countries.length
      ∧ snap.tests_per_million.length = snap.countries.length
      ∧ snap.iso3.length ≤ snap.countries.length := by
  intro junk raw now snap h
  unfold processData at h
  cases hpc : processCountries raw with
  | error e => rw [hpc] at h; cases h
  | ok s =>
    rw [hpc] at h
    cases hpg : processGlobals raw now with
    | error e => rw [hpg] at h; cases h
    | ok g =>
      rw [hpg] at h
      injection h with h
      subst h
      obtain ⟨ha, hiso⟩ := processCountries_ok hpc
      refine ⟨ha _, ha _, ha _, ha _, ?_, ?_, ?_, hiso⟩
      all_goals rw [perMillion_length]; exact ha _

/-- Claim C2 (counterexample): a string where a number is expected is NOT
replaced by 0 — numpy raises `ValueError`, which the loop's
`except (KeyError, TypeError)` does not catch, so the whole batch is aborted
and the fallback path runs (here, with an empty cache, yielding 0 countries
instead of the claimed 3); likewise a non-object record raises
`AttributeError`, aborting the whole batch instead of being skipped (0
countries instead of the claimed 2). -/
theorem malformed_record_counterexample :
    processData junkC rawStr 100 = .error .valueError
    ∧ (fetch_covid_data junkC true 100 (.ok rawStr) ⟨none, none⟩).1.countries.length = 0
    ∧ processData junkC rawNonObj 100 = .error .attributeError
    ∧ (fetch_covid_data junkC true 100 (.ok rawNonObj) ⟨none, none⟩).1.countries.length = 0 :=
  ⟨rfl, rfl, rfl, rfl⟩

/-- Claim C2 (amended): a record *missing* a numeric key gets that field
defaulted (0; 1 for population) without aborting — a 3-record batch with
record 2 missing `cases` yields `cases[1] = 0` and 3 countries; a record
whose numeric field is `null` raises `TypeError`, which IS caught, skipping
the rest of that record (3 countries but only 2 iso3 entries); but a
non-numeric string raises `ValueError` and a non-object record raises
`AttributeError`, neither of which is caught, so those batches abort
entirely and fall back. -/
theorem malformed_record_amended :
    (processData junkC rawMissing 100).map Snapshot.cases = .ok [10, 0, 30]
    ∧ (processData junkC rawMissing 100).map (fun s => s.countries.length) = .ok 3
    ∧ (processData junkC rawMissing 100).map (fun s => s.iso3.length) = .ok 3
    ∧ (processData junkC rawNull 100).map (fun s => s.countries.length) = .ok 3
    ∧ (processData junkC rawNull 100).map (fun s => s.iso3.length) = .ok 2
    ∧ processData junkC rawStr 100 = .error .valueError
    ∧ processData junkC rawNonObj 100 = .error .attributeError :=
  ⟨rfl, rfl, rfl, rfl, rfl, rfl, rfl⟩

/-- Claim C10 (counterexample): a successful refresh over a 3-record batch
whose second record has `null` for `cases` produces 3 countries but only 2
iso3 entries — the parallel collections do NOT all have the same length. -/
theorem parallel_lengths_counterexample :
    (processData junkC rawNull 100).map (fun s => (s.countries.length, s.iso3.length)) =
      .ok (3, 2)
    ∧ (3 : ℕ) ≠ 2 :=
  ⟨rfl, by decide⟩

/-- Witness for `parallel_lengths_amended` on a concrete successful batch. -/
theorem parallel_lengths_witness :
    processData junkC rawGood 100 = .ok snapGood
    ∧ snapGood.cases.length = snapGood.countries.length
    ∧ snapGood.iso3.length ≤ snapGood.countries.length :=
  ⟨rfl, (parallel_lengths_amended junkC rawGood 100 snapGood rfl).1,
    (parallel_lengths_amended junkC rawGood 100 snapGood rfl).2.2.2.2.2.2.2⟩

/-- Claim C6 (counterexample): with a record whose population is 0 and with
uninitialized memory holding 1, the per-million slot is 1,000,000 — not the
0 the claim specifies for non-positive population. -/
theorem per_million_counterexample :
    (processData junkC rawZeroPop 100).map Snapshot.cases_per_million = .ok [1000000]
    ∧ ((1000000 : ℚ) = 0 → False) := by
  constructor
  · have h : (processData junkC rawZeroPop 100).map Snapshot.cases_per_million =
        .ok (perMillion (fun _ => 1) [5] [0]) := rfl
    rw [h]
    norm_num [perMillion, npDivideWhere, List.range_succ]
  · norm_num

/-- Claim C5 (code bug): the cache itself never fails outward — a failed
first fetch returns the synthetic empty snapshot — but the presentation
layer then calls `max()` on the empty cases array inside
`create_map_figure`, raising `ValueError`, so the dashboard update does NOT
always complete. -/
theorem dashboard_empty_crash :
    (fetch_covid_data (fun _ _ => 1) false 100 (.error .typeError) ⟨none, none⟩).1 =
      emptySnapshot 100
    ∧ create_map_figure (emptySnapshot 100).cases = .error .valueError
    ∧ (update_dashboard (fun _ _ => 1) 100 (.error .typeError) ⟨none, none⟩).1 =
      .error .valueError :=
  ⟨rfl, rfl, rfl⟩
